import Mathlib

/-!
Shallow embedding of `src/backend--project/server.js`, an Express + SQLite
backend for a personal recipe manager.  Pure data is modelled with Lean
structures; the SQLite tables become lists of rows inside a `DB` state, and
each Express handler becomes a function from its inputs (request body, path
parameter, authenticated user id) and the current `DB` to a new `DB` and an
HTTP `Response`.  Library collaborators that are not part of the repository
(bcrypt, jsonwebtoken, express-validator's email grammar) are abstracted as
function parameters of the handlers; concrete sample instances are provided
for evaluating the development on closed inputs.
-/

namespace RecipeApi

/-- A row of the `users` table (`server.js` lines 27-33). -/
structure User where
  id : Nat
  name : String
  email : String
  password : String
  createdAt : String
deriving Repr, DecidableEq

/-- A row of the `recipes` table (`server.js` lines 35-47).  `imageUrl` and
`categoryId` are nullable columns, the four text fields and `userId` are
`NOT NULL`. -/
structure Recipe where
  id : Nat
  title : String
  description : String
  ingredients : String
  instructions : String
  imageUrl : Option String
  categoryId : Option Nat
  userId : Nat
  createdAt : String
deriving Repr, DecidableEq

/-- The SQLite database state: the two table contents plus the AUTOINCREMENT
counters that generate fresh primary keys. -/
structure DB where
  users : List User
  recipes : List Recipe
  nextUserId : Nat
  nextRecipeId : Nat
deriving Repr, DecidableEq

/-- The JSON bodies the handlers produce, one constructor per body shape
appearing in `server.js`. -/
inductive RespBody where
  /-- `{error: msg}` -/
  | errMsg (msg : String)
  /-- `{errors: [...]}` from express-validator; we keep the `msg` strings. -/
  | errList (msgs : List String)
  /-- a single recipe row, `GET /recipes/:id` success -/
  | recipeJson (r : Recipe)
  /-- a list of recipe rows, `GET /recipes` success -/
  | recipeList (rs : List Recipe)
  /-- `POST /recipes` 201 body (lines 231-239): echoes the inserted fields
  plus `this.lastID`; `userId` and `createdAt` are not echoed. -/
  | createdRecipe (id : Nat) (title description ingredients instructions : String)
      (imageUrl : Option String) (categoryId : Option Nat)
  /-- `{message: m}` -/
  | message (m : String)
  /-- `{token}` — login success body, no profile fields -/
  | tokenOnly (token : String)
  /-- `{id, name, email, token}` — signup 201 body -/
  | signupSuccess (id : Nat) (name email token : String)
deriving Repr, DecidableEq

/-- An HTTP response: status code plus JSON body. -/
structure Response where
  status : Nat
  body : RespBody
deriving Repr, DecidableEq

/-- `POST /signup` request body; a `none` field is a JS `undefined`. -/
structure SignupBody where
  name : Option String
  email : Option String
  password : Option String
deriving Repr, DecidableEq

/-- `POST /login` request body. -/
structure LoginBody where
  email : Option String
  password : Option String
deriving Repr, DecidableEq

/-- `POST /recipes` and `PUT /recipes/:id` request body; a `none` field is a
JS `undefined`/`null`, which node-sqlite3 binds as SQL `NULL`. -/
structure RecipeBody where
  title : Option String
  description : Option String
  ingredients : Option String
  instructions : Option String
  imageUrl : Option String
  categoryId : Option Nat
deriving Repr, DecidableEq

/-! Response message strings, verbatim from `server.js`. -/

def msgNameReq : String := "Name is required"
def msgInvalidEmail : String := "Invalid email"
def msgPasswordLen : String := "Password must be at least 6 characters long"
def msgPasswordReq : String := "Password is required"
def msgEmailExists : String := "Email already exists"
def msgUserNotFound : String := "User not found"
def msgInvalidCreds : String := "Invalid credentials"
def msgNoToken : String := "Access denied. No token provided."
def msgInvalidToken : String := "Invalid token."
def msgRecipeNotFound : String := "Recipe not found"
def msgTitleReq : String := "Title is required"
def msgDescReq : String := "Description is required"
def msgIngrReq : String := "Ingredients are required"
def msgInstrReq : String := "Instructions are required"
def msgFailedAdd : String := "Failed to add recipe"
def msgFailedUpdate : String := "Failed to update recipe"
def msgNotFoundOrUnauth : String := "Recipe not found or unauthorized"
def msgUpdated : String := "Recipe updated successfully"
def bearerTag : String := "Bearer "
def strEmpty : String := ""

/-! ## Token authentication (`authenticateToken`, lines 64-76) -/

/-- The two failure modes of the authentication middleware: no token supplied
(401, `MissingCredentialError` in the spec taxonomy) and failed
signature/expiry verification (400, `InvalidCredentialError`). -/
inductive AuthError where
  | missing
  | invalid
deriving Repr, DecidableEq

/-- JS `String.prototype.replace` with a string pattern replaces only the
first occurrence; Lean's `String.replace` replaces all, so we model the JS
behaviour explicitly on character lists (for a non-empty pattern, which is
the only case the server uses). -/
def replaceFirstChars (s pat sub : List Char) : List Char :=
  match s with
  | [] => []
  | c :: cs =>
      if pat.isPrefixOf (c :: cs) then sub ++ (c :: cs).drop pat.length
      else c :: replaceFirstChars cs pat sub

/-- Line 65: `req.header("Authorization")?.replace("Bearer ", "")`. -/
def bearerToken (h : String) : String :=
  ⟨replaceFirstChars h.toList bearerTag.toList []⟩

/-- The middleware of lines 64-76, with `jwt.verify` abstracted as
`verify : String → Option Nat` (returning the `id` claim on success).  A
missing header or an empty extracted token is JS-falsy and yields the
401 path; a token `verify` rejects yields the 400 path. -/
def authenticate (verify : String → Option Nat) (hdr : Option String) :
    Except AuthError Nat :=
  match hdr with
  | none => Except.error AuthError.missing
  | some h =>
    if bearerToken h = strEmpty then Except.error AuthError.missing
    else
      match verify (bearerToken h) with
      | none => Except.error AuthError.invalid
      | some uid => Except.ok uid

/-- The HTTP response each authentication failure produces (lines 66 and 71). -/
def authErrResponse : AuthError → Response
  | AuthError.missing => ⟨401, RespBody.errMsg msgNoToken⟩
  | AuthError.invalid => ⟨400, RespBody.errMsg msgInvalidToken⟩

/-! ## express-validator checks -/

/-- `body(f).notEmpty()`: fails on a missing field and on the empty string. -/
def optNotEmpty (o : Option String) : Bool :=
  match o with
  | none => false
  | some s => s ≠ strEmpty

/-- `body("email").isEmail()` with the email grammar abstracted as `f`;
fails on a missing field. -/
def optIsEmail (f : String → Bool) (o : Option String) : Bool :=
  match o with
  | none => false
  | some s => f s

/-- `body("password").isLength({min: 6})`; fails on a missing field. -/
def optMinLen6 (o : Option String) : Bool :=
  match o with
  | none => false
  | some s => 6 ≤ s.length

/-- The `/signup` validator chain (lines 110-112); the resulting list holds
one `msg` entry per violated field, in declaration order. -/
def validateSignup (emailValid : String → Bool) (b : SignupBody) : List String :=
  (if optNotEmpty b.name then [] else [msgNameReq]) ++
  (if optIsEmail emailValid b.email then [] else [msgInvalidEmail]) ++
  (if optMinLen6 b.password then [] else [msgPasswordLen])

/-- The `/login` validator chain (lines 147-148). -/
def validateLogin (emailValid : String → Bool) (b : LoginBody) : List String :=
  (if optIsEmail emailValid b.email then [] else [msgInvalidEmail]) ++
  (if optNotEmpty b.password then [] else [msgPasswordReq])

/-- The `/recipes` create validator chain (lines 212-215). -/
def validateRecipe (b : RecipeBody) : List String :=
  (if optNotEmpty b.title then [] else [msgTitleReq]) ++
  (if optNotEmpty b.description then [] else [msgDescReq]) ++
  (if optNotEmpty b.ingredients then [] else [msgIngrReq]) ++
  (if optNotEmpty b.instructions then [] else [msgInstrReq])

/-! ## SQL statement semantics -/

/-- `INSERT INTO users (name, email, password) VALUES (?, ?, ?)`:
fails when the UNIQUE constraint on `email` is violated, otherwise appends a
row with the next AUTOINCREMENT id (returned as `this.lastID`) and the
CURRENT_TIMESTAMP default `now`. -/
def insertUser (db : DB) (name email password now : String) :
    Except Unit (DB × Nat) :=
  if db.users.any (fun u => u.email == email) then Except.error ()
  else
    Except.ok
      ({ db with
          users := db.users ++ [⟨db.nextUserId, name, email, password, now⟩],
          nextUserId := db.nextUserId + 1 },
        db.nextUserId)

/-- `WHERE id = ? AND userId = ?` row predicate shared by the get and update
statements. -/
def rowMatch (id uid : Nat) (r : Recipe) : Bool :=
  r.id == id && r.userId == uid

/-- `INSERT INTO recipes (...) VALUES (?,...,?)` (lines 223-225): the four
text columns are `NOT NULL`, so a missing (SQL `NULL`) value makes the
statement fail; `imageUrl` and `categoryId` are nullable. -/
def sqlInsertRecipe (db : DB) (b : RecipeBody) (uid : Nat) (now : String) :
    Except Unit (DB × Nat) :=
  match b.title, b.description, b.ingredients, b.instructions with
  | some t, some d, some ing, some ins =>
      Except.ok
        ({ db with
            recipes := db.recipes ++
              [⟨db.nextRecipeId, t, d, ing, ins, b.imageUrl, b.categoryId, uid, now⟩],
            nextRecipeId := db.nextRecipeId + 1 },
          db.nextRecipeId)
  | _, _, _, _ => Except.error ()

/-- The field overwrite a successful `UPDATE recipes SET ...` performs on a
matched row (line 254): all six mutable columns are set from the statement
parameters; `id`, `userId`, `createdAt` are untouched. -/
def overwriteRow (t d ing ins : String) (iu : Option String) (cid : Option Nat)
    (r : Recipe) : Recipe :=
  { r with
      title := t, description := d, ingredients := ing, instructions := ins,
      categoryId := cid, imageUrl := iu }

/-- `UPDATE recipes SET ... WHERE id = ? AND userId = ?` (lines 253-255),
returning the updated database and `this.changes`.  If no row matches, the
statement succeeds with zero changes.  If a row matches but one of the four
`NOT NULL` text columns would be set to `NULL`, the statement aborts and is
rolled back, leaving the database unchanged. -/
def sqlUpdateRecipes (db : DB) (b : RecipeBody) (id uid : Nat) :
    Except Unit (DB × Nat) :=
  if (db.recipes.filter (rowMatch id uid)) = [] then Except.ok (db, 0)
  else
    match b.title, b.description, b.ingredients, b.instructions with
    | some t, some d, some ing, some ins =>
        Except.ok
          ({ db with
              recipes := db.recipes.map (fun r =>
                if rowMatch id uid r then overwriteRow t d ing ins b.imageUrl b.categoryId r
                else r) },
            (db.recipes.filter (rowMatch id uid)).length)
    | _, _, _, _ => Except.error ()

/-! ## Route handlers (post-authentication bodies) -/

/-- `POST /signup` handler (lines 107-141).  `hash` abstracts
`bcrypt.hash(password, 10)` and `mkToken` abstracts `jwt.sign({id}, ...)`. -/
def handleSignup (emailValid : String → Bool) (hash : String → String)
    (mkToken : Nat → String) (b : SignupBody) (db : DB) (now : String) :
    DB × Response :=
  if validateSignup emailValid b ≠ [] then
    (db, ⟨400, RespBody.errList (validateSignup emailValid b)⟩)
  else
    match insertUser db (b.name.getD strEmpty) (b.email.getD strEmpty)
        (hash (b.password.getD strEmpty)) now with
    | Except.error _ => (db, ⟨400, RespBody.errMsg msgEmailExists⟩)
    | Except.ok (db2, newId) =>
        (db2, ⟨201, RespBody.signupSuccess newId (b.name.getD strEmpty)
          (b.email.getD strEmpty) (mkToken newId)⟩)

/-- `POST /login` handler (lines 144-170).  `compare` abstracts
`bcrypt.compare(password, storedHash)`; `db.get` returns the first row
matching the email. -/
def handleLogin (emailValid : String → Bool) (compare : String → String → Bool)
    (mkToken : Nat → String) (b : LoginBody) (db : DB) : Response :=
  if validateLogin emailValid b ≠ [] then
    ⟨400, RespBody.errList (validateLogin emailValid b)⟩
  else
    match db.users.find? (fun u => u.email == b.email.getD strEmpty) with
    | none => ⟨404, RespBody.errMsg msgUserNotFound⟩
    | some user =>
        if compare (b.password.getD strEmpty) user.password then
          ⟨200, RespBody.tokenOnly (mkToken user.id)⟩
        else ⟨401, RespBody.errMsg msgInvalidCreds⟩

/-- `GET /recipes` handler body (lines 173-184): all rows owned by the
caller. -/
def handleGetRecipes (uid : Nat) (db : DB) : Response :=
  ⟨200, RespBody.recipeList (db.recipes.filter (fun r => r.userId == uid))⟩

/-- `GET /recipes/:id` handler body (lines 187-205): the row must match both
the id and the caller's userId, otherwise 404. -/
def handleGetRecipeById (id uid : Nat) (db : DB) : Response :=
  match db.recipes.find? (rowMatch id uid) with
  | none => ⟨404, RespBody.errMsg msgRecipeNotFound⟩
  | some r => ⟨200, RespBody.recipeJson r⟩

/-- `POST /recipes` handler body (lines 208-243). -/
def handlePostRecipes (b : RecipeBody) (uid : Nat) (db : DB) (now : String) :
    DB × Response :=
  if validateRecipe b ≠ [] then (db, ⟨400, RespBody.errList (validateRecipe b)⟩)
  else
    match sqlInsertRecipe db b uid now with
    | Except.error _ => (db, ⟨500, RespBody.errMsg msgFailedAdd⟩)
    | Except.ok (db2, newId) =>
        (db2, ⟨201, RespBody.createdRecipe newId
          (b.title.getD strEmpty) (b.description.getD strEmpty)
          (b.ingredients.getD strEmpty) (b.instructions.getD strEmpty)
          b.imageUrl b.categoryId⟩)

/-- `PUT /recipes/:id` handler body (lines 246-267): no field validation; a
store error is 500, zero changed rows is 404, otherwise a confirmation
message. -/
def handlePutRecipe (id : Nat) (b : RecipeBody) (uid : Nat) (db : DB) :
    DB × Response :=
  match sqlUpdateRecipes db b id uid with
  | Except.error _ => (db, ⟨500, RespBody.errMsg msgFailedUpdate⟩)
  | Except.ok (db2, changes) =>
      if changes = 0 then (db2, ⟨404, RespBody.errMsg msgNotFoundOrUnauth⟩)
      else (db2, ⟨200, RespBody.message msgUpdated⟩)

/-! ## Authenticated routes: `authenticateToken` composed with each handler -/

def route_getRecipes (verify : String → Option Nat) (hdr : Option String)
    (db : DB) : Response :=
  match authenticate verify hdr with
  | Except.error e => authErrResponse e
  | Except.ok uid => handleGetRecipes uid db

def route_getRecipeById (verify : String → Option Nat) (hdr : Option String)
    (id : Nat) (db : DB) : Response :=
  match authenticate verify hdr with
  | Except.error e => authErrResponse e
  | Except.ok uid => handleGetRecipeById id uid db

def route_postRecipes (verify : String → Option Nat) (hdr : Option String)
    (b : RecipeBody) (db : DB) (now : String) : DB × Response :=
  match authenticate verify hdr with
  | Except.error e => (db, authErrResponse e)
  | Except.ok uid => handlePostRecipes b uid db now

def route_putRecipe (verify : String → Option Nat) (hdr : Option String)
    (id : Nat) (b : RecipeBody) (db : DB) : DB × Response :=
  match authenticate verify hdr with
  | Except.error e => (db, authErrResponse e)
  | Except.ok uid => handlePutRecipe id b uid db

/-! ## Concrete sample collaborators, for evaluating closed instances.
The repository's email grammar, password hash and token codec live in
libraries (express-validator, bcrypt, jsonwebtoken), not in `src`; these
simple executable stand-ins are used only to instantiate the parametric
handlers on closed inputs. -/

/-- Modelled from the spec: express-validator's `isEmail` syntactic check
(library code, not in `src`), approximated as "contains an `@`"; only used
to instantiate the `emailValid` parameter on closed inputs. -/
def emailOk (s : String) : Bool := s.toList.contains '@'

/-- Modelled from the spec: bcrypt's one-way hash (library code, not in
`src`); an injective executable stand-in. -/
def hashModel (p : String) : String := "h:" ++ p

/-- Modelled from the spec: bcrypt's hash verification (library code, not in
`src`). -/
def compareModel (p h : String) : Bool := hashModel p == h

/-- Modelled from the spec: `jwt.sign({id: uid}, ...)` (library code, not in
`src`). -/
def mkTokenModel (uid : Nat) : String := "t" ++ toString uid

/-- Modelled from the spec: `jwt.verify` (library code, not in `src`);
accepts exactly the sample token of user 1. -/
def verifyModel (t : String) : Option Nat :=
  if t == mkTokenModel 1 then some 1 else none

/-! Sample literals used by the closed instances below. -/

def emailA : String := "a@x.com"
def emailB : String := "b@x.com"
def nameAlice : String := "Alice"
def nameB : String := "Bob"
def pwSecret : String := "secret1"
def pwSecret2 : String := "secret2"
def dayStr : String := "2026-01-03"

/-- A sample stored user (signed up earlier with password `secret1`). -/
def user1 : User := ⟨1, nameAlice, emailA, hashModel pwSecret, "2026-01-01"⟩

/-- A sample database holding only `user1`. -/
def db0 : DB := ⟨[user1], [], 2, 1⟩

/-- A sample recipe owned by `user1`. -/
def recipe1 : Recipe := ⟨1, "Soup", "hot", "water", "boil", none, none, 1, "2026-01-02"⟩

/-- A sample database holding `user1` and `recipe1`. -/
def db1 : DB := ⟨[user1], [recipe1], 2, 2⟩

/-- A request body with every field absent. -/
def rbEmpty : RecipeBody := ⟨none, none, none, none, none, none⟩

def tStew : String := "Stew"
def dWarm : String := "warm"
def iMeat : String := "meat"
def insSimmer : String := "simmer"

/-- A complete recipe request body. -/
def rbFull : RecipeBody :=
  ⟨some tStew, some dWarm, some iMeat, some insSimmer, none, none⟩

/-- A body whose four required fields are all present but empty strings. -/
def rbBlank : RecipeBody :=
  ⟨some strEmpty, some strEmpty, some strEmpty, some strEmpty, none, none⟩

/-- A body with an empty title and the other required fields filled. -/
def rbNoTitle : RecipeBody :=
  ⟨some strEmpty, some dWarm, some iMeat, some insSimmer, none, none⟩

/-- An Authorization header whose bearer token the sample verifier rejects. -/
def headerBad : String := "Bearer nope"

/-! ## Shared lemmas -/

/-- If no stored recipe matches the id/owner pair, the single-recipe GET
answers with the fixed 404 body. -/
theorem handleGet_noMatch (db : DB) (id uid : Nat)
    (h : ∀ s ∈ db.recipes, rowMatch id uid s = false) :
    handleGetRecipeById id uid db = ⟨404, RespBody.errMsg msgRecipeNotFound⟩ := by
  have hf : db.recipes.find? (rowMatch id uid) = none :=
    List.find?_eq_none.mpr (fun x hx => by simp [h x hx])
  simp [handleGetRecipeById, hf]

/-- If no stored recipe matches the id/owner pair, the update statement
changes zero rows, so the PUT handler answers 404 and leaves the database
unchanged. -/
theorem handlePut_noMatch (db : DB) (id uid : Nat) (b : RecipeBody)
    (h : ∀ s ∈ db.recipes, rowMatch id uid s = false) :
    handlePutRecipe id b uid db = (db, ⟨404, RespBody.errMsg msgNotFoundOrUnauth⟩) := by
  have hf : db.recipes.filter (rowMatch id uid) = [] :=
    List.filter_eq_nil_iff.mpr (fun a ha => by simp [h a ha])
  simp [handlePutRecipe, sqlUpdateRecipes, hf]

/-- A matching row makes the update statement's WHERE clause select a
non-empty row set. -/
theorem filter_ne_nil_of_match (db : DB) (id uid : Nat) (r : Recipe)
    (hr : r ∈ db.recipes) (hid : r.id = id) (huid : r.userId = uid) :
    db.recipes.filter (rowMatch id uid) ≠ [] := by
  intro hnil
  have hmem : r ∈ db.recipes.filter (rowMatch id uid) :=
    List.mem_filter.mpr ⟨hr, by simp [rowMatch, hid, huid]⟩
  rw [hnil] at hmem
  exact absurd hmem (List.not_mem_nil r)

/-- Successful `POST /recipes`: with the four required fields present and
non-empty, the handler appends a row owned by the caller, bumps the id
counter, and echoes the stored fields plus the generated id. -/
theorem handlePost_success (t d ing ins : String) (iu : Option String)
    (cid : Option Nat) (uid : Nat) (db : DB) (now : String)
    (ht : t ≠ strEmpty) (hd : d ≠ strEmpty) (hing : ing ≠ strEmpty)
    (hins : ins ≠ strEmpty) :
    handlePostRecipes ⟨some t, some d, some ing, some ins, iu, cid⟩ uid db now =
      ({ db with
          recipes := db.recipes ++
            [⟨db.nextRecipeId, t, d, ing, ins, iu, cid, uid, now⟩],
          nextRecipeId := db.nextRecipeId + 1 },
        ⟨201, RespBody.createdRecipe db.nextRecipeId t d ing ins iu cid⟩) := by
  have hv : validateRecipe ⟨some t, some d, some ing, some ins, iu, cid⟩ = [] := by
    simp [validateRecipe, optNotEmpty, ht, hd, hing, hins]
  simp [handlePostRecipes, hv, sqlInsertRecipe]

/-- The signup validator output names exactly the violated fields. -/
theorem mem_validateSignup (emailValid : String → Bool) (b : SignupBody) :
    (msgNameReq ∈ validateSignup emailValid b ↔ optNotEmpty b.name = false) ∧
    (msgInvalidEmail ∈ validateSignup emailValid b ↔
      optIsEmail emailValid b.email = false) ∧
    (msgPasswordLen ∈ validateSignup emailValid b ↔ optMinLen6 b.password = false) := by
  cases hn : optNotEmpty b.name <;> cases he : optIsEmail emailValid b.email <;>
    cases hp : optMinLen6 b.password <;>
    refine ⟨?_, ?_, ?_⟩ <;> simp [validateSignup, hn, he, hp] <;> decide

/-- The recipe-create validator output names exactly the empty required
fields. -/
theorem mem_validateRecipe (b : RecipeBody) :
    (msgTitleReq ∈ validateRecipe b ↔ optNotEmpty b.title = false) ∧
    (msgDescReq ∈ validateRecipe b ↔ optNotEmpty b.description = false) ∧
    (msgIngrReq ∈ validateRecipe b ↔ optNotEmpty b.ingredients = false) ∧
    (msgInstrReq ∈ validateRecipe b ↔ optNotEmpty b.instructions = false) := by
  cases ht : optNotEmpty b.title <;> cases hd : optNotEmpty b.description <;>
    cases hi : optNotEmpty b.ingredients <;> cases hs : optNotEmpty b.instructions <;>
    refine ⟨?_, ?_, ?_, ?_⟩ <;> simp [validateRecipe, ht, hd, hi, hs] <;> decide

/-- A violated signup field makes the validator output non-empty. -/
theorem validateSignup_ne_nil (emailValid : String → Bool) (b : SignupBody)
    (h : optNotEmpty b.name = false ∨ optIsEmail emailValid b.email = false ∨
      optMinLen6 b.password = false) :
    validateSignup emailValid b ≠ [] := by
  rcases h with h | h | h
  · exact List.ne_nil_of_mem ((mem_validateSignup emailValid b).1.mpr h)
  · exact List.ne_nil_of_mem ((mem_validateSignup emailValid b).2.1.mpr h)
  · exact List.ne_nil_of_mem ((mem_validateSignup emailValid b).2.2.mpr h)

/-- An empty required create field makes the validator output non-empty. -/
theorem validateRecipe_ne_nil (b : RecipeBody)
    (h : optNotEmpty b.title = false ∨ optNotEmpty b.description = false ∨
      optNotEmpty b.ingredients = false ∨ optNotEmpty b.instructions = false) :
    validateRecipe b ≠ [] := by
  rcases h with h | h | h | h
  · exact List.ne_nil_of_mem ((mem_validateRecipe b).1.mpr h)
  · exact List.ne_nil_of_mem ((mem_validateRecipe b).2.1.mpr h)
  · exact List.ne_nil_of_mem ((mem_validateRecipe b).2.2.1.mpr h)
  · exact List.ne_nil_of_mem ((mem_validateRecipe b).2.2.2.mpr h)

/-! ## Claim theorems -/

/-- C1 (owner confidentiality): for a caller `A` who does not own the
stored recipe `r` (and assuming stored recipe ids are unique, as the
PRIMARY KEY guarantees), `GET /recipes/:id` on `r.id` answers the fixed
404 not-found body, `PUT /recipes/:id` on `r.id` answers the fixed 404
body and leaves the database unchanged, and both endpoints answer exactly
the same responses for any id that exists nowhere in the store — so a
non-owned existing id is indistinguishable from a non-existent one, and
no response ever carries the other user's recipe data. -/
theorem owner_confidentiality (db : DB) (A : Nat) (r : Recipe) (b : RecipeBody)
    (hnodup : (db.recipes.map Recipe.id).Nodup)
    (hr : r ∈ db.recipes) (hA : A ≠ r.userId) :
    handleGetRecipeById r.id A db = ⟨404, RespBody.errMsg msgRecipeNotFound⟩ ∧
    handlePutRecipe r.id b A db = (db, ⟨404, RespBody.errMsg msgNotFoundOrUnauth⟩) ∧
    ∀ j, (∀ s ∈ db.recipes, s.id ≠ j) →
      handleGetRecipeById j A db = ⟨404, RespBody.errMsg msgRecipeNotFound⟩ ∧
      handlePutRecipe j b A db = (db, ⟨404, RespBody.errMsg msgNotFoundOrUnauth⟩) := by
  have key : ∀ s ∈ db.recipes, rowMatch r.id A s = false := by
    intro s hs
    rcases hmatch : rowMatch r.id A s with _ | _
    · rfl
    · exfalso
      have hpair := hmatch
      simp [rowMatch] at hpair
      obtain ⟨hid, huid⟩ := hpair
      have hsr : s = r := List.inj_on_of_nodup_map hnodup hs hr (by simp [hid])
      rw [hsr] at huid
      exact hA huid.symm
  refine ⟨handleGet_noMatch db r.id A key, handlePut_noMatch db r.id A b key, ?_⟩
  intro j hj
  have key2 : ∀ s ∈ db.recipes, rowMatch j A s = false := by
    intro s hs
    simp [rowMatch, hj s hs]
  exact ⟨handleGet_noMatch db j A key2, handlePut_noMatch db j A b key2⟩

/-- C1 witness: in the sample store, user 2 gets the 404 body for user 1's
recipe from both endpoints, with the store untouched. -/
theorem owner_confidentiality_witness :
    handleGetRecipeById recipe1.id 2 db1 = ⟨404, RespBody.errMsg msgRecipeNotFound⟩ ∧
    handlePutRecipe recipe1.id rbFull 2 db1 =
      (db1, ⟨404, RespBody.errMsg msgNotFoundOrUnauth⟩) :=
  ⟨(owner_confidentiality db1 2 recipe1 rbFull (by decide) (by decide) (by decide)).1,
    (owner_confidentiality db1 2 recipe1 rbFull (by decide) (by decide) (by decide)).2.1⟩

/-- C2 (authorization gate): each of the four recipe routes (list, get by
id, create, update) runs behind the token middleware.  With no
Authorization header the route answers the 401 missing-credential body;
with a header whose extracted token is non-empty but rejected by the
verifier the route answers the 400 invalid-credential body.  In both cases
the answer shown here is a constant independent of the universally
quantified database, and the write routes return the database unchanged —
the repository is never consulted. -/
theorem auth_gate (verify : String → Option Nat) (hdr : Option String)
    (db : DB) (rid : Nat) (b : RecipeBody) (now : String) :
    (hdr = none →
      route_getRecipes verify hdr db = authErrResponse AuthError.missing ∧
      route_getRecipeById verify hdr rid db = authErrResponse AuthError.missing ∧
      route_postRecipes verify hdr b db now = (db, authErrResponse AuthError.missing) ∧
      route_putRecipe verify hdr rid b db = (db, authErrResponse AuthError.missing)) ∧
    (∀ s, hdr = some s → bearerToken s ≠ strEmpty → verify (bearerToken s) = none →
      route_getRecipes verify hdr db = authErrResponse AuthError.invalid ∧
      route_getRecipeById verify hdr rid db = authErrResponse AuthError.invalid ∧
      route_postRecipes verify hdr b db now = (db, authErrResponse AuthError.invalid) ∧
      route_putRecipe verify hdr rid b db = (db, authErrResponse AuthError.invalid)) := by
  constructor
  · rintro rfl
    exact ⟨rfl, rfl, rfl, rfl⟩
  · rintro s rfl hne hver
    have ha : authenticate verify (some s) = Except.error AuthError.invalid := by
      simp [authenticate, hne, hver]
    exact ⟨by simp [route_getRecipes, ha], by simp [route_getRecipeById, ha],
      by simp [route_postRecipes, ha], by simp [route_putRecipe, ha]⟩

/-- C2 witness: a request with no Authorization header on the update route,
and one with an unverifiable bearer token on the list route, get the two
fixed credential-error responses with the sample store untouched. -/
theorem auth_gate_witness :
    route_putRecipe verifyModel none 1 rbFull db1 =
      (db1, authErrResponse AuthError.missing) ∧
    route_getRecipes verifyModel (some headerBad) db1 =
      authErrResponse AuthError.invalid :=
  ⟨((auth_gate verifyModel none db1 1 rbFull dayStr).1 rfl).2.2.2,
    ((auth_gate verifyModel (some headerBad) db1 1 rbFull dayStr).2 headerBad rfl
      (by decide) (by decide)).1⟩

/-- C3 (update contract): an authenticated PUT whose id/owner pair matches
no stored row — in particular any non-existent id, for any caller —
answers 404 with the not-found-or-unauthorized body and leaves the store
unchanged; when a row matches and the body carries the four text fields
(no non-emptiness check is applied to them, as the universally quantified
field values include the empty string), every mutable column of the
matching row is overwritten with the body values and the handler answers
the 200 confirmation message. -/
theorem update_contract (db : DB) (id uid : Nat) (b : RecipeBody) :
    ((∀ s ∈ db.recipes, rowMatch id uid s = false) →
      handlePutRecipe id b uid db = (db, ⟨404, RespBody.errMsg msgNotFoundOrUnauth⟩)) ∧
    (∀ t d ing ins, b.title = some t → b.description = some d →
      b.ingredients = some ing → b.instructions = some ins →
      (∃ r ∈ db.recipes, r.id = id ∧ r.userId = uid) →
      handlePutRecipe id b uid db =
        ({ db with
            recipes := db.recipes.map (fun s =>
              if rowMatch id uid s then
                overwriteRow t d ing ins b.imageUrl b.categoryId s
              else s) },
          ⟨200, RespBody.message msgUpdated⟩)) := by
  constructor
  · exact handlePut_noMatch db id uid b
  · rintro t d ing ins ht hd hing hins ⟨r, hr, hid, huid⟩
    have hne := filter_ne_nil_of_match db id uid r hr hid huid
    have hlen : (db.recipes.filter (rowMatch id uid)).length ≠ 0 := by
      intro h0
      exact hne (List.eq_nil_of_length_eq_zero h0)
    simp [handlePutRecipe, sqlUpdateRecipes, hne, ht, hd, hing, hins, hlen]

/-- C3 witness: updating the non-existent id 999999 in the sample store
answers 404, and updating the owned recipe with all-empty field values
succeeds with the confirmation message — no non-emptiness validation. -/
theorem update_contract_witness :
    handlePutRecipe 999999 rbFull 1 db1 =
      (db1, ⟨404, RespBody.errMsg msgNotFoundOrUnauth⟩) ∧
    handlePutRecipe 1 rbBlank 1 db1 =
      ({ db1 with
          recipes := db1.recipes.map (fun s =>
            if rowMatch 1 1 s then
              overwriteRow strEmpty strEmpty strEmpty strEmpty none none s
            else s) },
        ⟨200, RespBody.message msgUpdated⟩) :=
  ⟨(update_contract db1 999999 1 rbFull).1 (by decide),
    (update_contract db1 1 1 rbBlank).2 strEmpty strEmpty strEmpty strEmpty
      rfl rfl rfl rfl ⟨recipe1, by decide, by decide, by decide⟩⟩

/-- C10 (implicit, missing update field): an authenticated PUT that targets
an existing recipe owned by the caller but whose body omits (or nulls) any
of the four NOT NULL text fields makes the UPDATE statement fail, so the
handler answers the 500 store-error body and the store — in particular the
targeted row — is left entirely unchanged; no ValidationError is raised. -/
theorem update_missing_field_store_error (db : DB) (id uid : Nat)
    (b : RecipeBody) (r : Recipe)
    (hr : r ∈ db.recipes) (hid : r.id = id) (huid : r.userId = uid)
    (hmiss : b.title = none ∨ b.description = none ∨
      b.ingredients = none ∨ b.instructions = none) :
    handlePutRecipe id b uid db = (db, ⟨500, RespBody.errMsg msgFailedUpdate⟩) := by
  have hne := filter_ne_nil_of_match db id uid r hr hid huid
  obtain ⟨bt, bd, bi, bins, biu, bcid⟩ := b
  rcases hmiss with h | h | h | h
  · subst h
    cases bd <;> cases bi <;> cases bins <;>
      simp [handlePutRecipe, sqlUpdateRecipes, hne]
  · subst h
    cases bt <;> cases bi <;> cases bins <;>
      simp [handlePutRecipe, sqlUpdateRecipes, hne]
  · subst h
    cases bt <;> cases bd <;> cases bins <;>
      simp [handlePutRecipe, sqlUpdateRecipes, hne]
  · subst h
    cases bt <;> cases bd <;> cases bi <;>
      simp [handlePutRecipe, sqlUpdateRecipes, hne]

/-- C10 witness: in the sample store, an owner update of recipe 1 with an
entirely absent body yields the 500 store error and no change. -/
theorem update_missing_field_store_error_witness :
    handlePutRecipe 1 rbEmpty 1 db1 = (db1, ⟨500, RespBody.errMsg msgFailedUpdate⟩) :=
  update_missing_field_store_error db1 1 1 rbEmpty recipe1
    (by decide) (by decide) (by decide) (Or.inl rfl)

/-- C4 (login contract, amended): for a login request that passes the
route's input validation (syntactically valid email, non-empty password):
if no stored user has that email the handler answers 404 user-not-found;
if the first user with that email exists but the hash comparison rejects
the password, 401 invalid-credentials; otherwise 200 with a freshly issued
token as the only body content — no profile fields.  The claim's original
unconditional form is refuted by `login_contract_cex`: a request that
fails input validation is answered 400 before any of this. -/
theorem login_contract (emailValid : String → Bool)
    (compare : String → String → Bool) (mkToken : Nat → String)
    (e pw : String) (db : DB)
    (hemail : emailValid e = true) (hpw : pw ≠ strEmpty) :
    (db.users.find? (fun u => u.email == e) = none →
      handleLogin emailValid compare mkToken ⟨some e, some pw⟩ db =
        ⟨404, RespBody.errMsg msgUserNotFound⟩) ∧
    (∀ u, db.users.find? (fun u => u.email == e) = some u →
      (compare pw u.password = false →
        handleLogin emailValid compare mkToken ⟨some e, some pw⟩ db =
          ⟨401, RespBody.errMsg msgInvalidCreds⟩) ∧
      (compare pw u.password = true →
        handleLogin emailValid compare mkToken ⟨some e, some pw⟩ db =
          ⟨200, RespBody.tokenOnly (mkToken u.id)⟩)) := by
  have hv : ¬(validateLogin emailValid ⟨some e, some pw⟩ ≠ []) := by
    simp [validateLogin, optIsEmail, optNotEmpty, hemail, hpw]
  refine ⟨fun hfind => by simp [handleLogin, hv, hfind],
    fun u hfind => ⟨fun hcmp => by simp [handleLogin, hv, hfind, hcmp],
      fun hcmp => by simp [handleLogin, hv, hfind, hcmp]⟩⟩

/-- C4 counterexample: the stored user exists and the empty password does
not match the stored hash, yet the response is the 400 validation body,
not the claimed invalid-credential response. -/
theorem login_contract_cex :
    db0.users.find? (fun u => u.email == emailA) = some user1 ∧
    compareModel strEmpty user1.password = false ∧
    handleLogin emailOk compareModel mkTokenModel ⟨some emailA, some strEmpty⟩ db0 =
      ⟨400, RespBody.errList [msgPasswordReq]⟩ ∧
    (400 : Nat) ≠ 401 := by decide

/-- C4 witness: the sample user logs in with the right password and gets
exactly the fresh token body. -/
theorem login_contract_witness :
    handleLogin emailOk compareModel mkTokenModel ⟨some emailA, some pwSecret⟩ db0 =
      ⟨200, RespBody.tokenOnly (mkTokenModel user1.id)⟩ :=
  ((login_contract emailOk compareModel mkTokenModel emailA pwSecret db0
      (by decide) (by decide)).2 user1 (by decide)).2 (by decide)

/-- C5 (signup validation, amended): a signup request violating any of the
three field constraints is answered 400 with the validator output, which
holds exactly one entry per violated field — all violations together — and
the store is unchanged; a request meeting all three constraints whose
email is not already stored (the qualification forced by
`signup_contract_cex`) creates one user row holding the one-way hash of
the password, never the plaintext, and is answered 201 with the new id,
name, email and an issued token. -/
theorem signup_contract (emailValid : String → Bool) (hash : String → String)
    (mkToken : Nat → String) (b : SignupBody) (db : DB) (now : String) :
    ((optNotEmpty b.name = false ∨ optIsEmail emailValid b.email = false ∨
        optMinLen6 b.password = false) →
      handleSignup emailValid hash mkToken b db now =
        (db, ⟨400, RespBody.errList (validateSignup emailValid b)⟩) ∧
      (msgNameReq ∈ validateSignup emailValid b ↔ optNotEmpty b.name = false) ∧
      (msgInvalidEmail ∈ validateSignup emailValid b ↔
        optIsEmail emailValid b.email = false) ∧
      (msgPasswordLen ∈ validateSignup emailValid b ↔
        optMinLen6 b.password = false)) ∧
    (∀ nm em pw, b = ⟨some nm, some em, some pw⟩ →
      optNotEmpty b.name = true → optIsEmail emailValid b.email = true →
      optMinLen6 b.password = true →
      (∀ u ∈ db.users, u.email ≠ em) →
      handleSignup emailValid hash mkToken b db now =
        ({ db with
            users := db.users ++ [⟨db.nextUserId, nm, em, hash pw, now⟩],
            nextUserId := db.nextUserId + 1 },
          ⟨201, RespBody.signupSuccess db.nextUserId nm em
            (mkToken db.nextUserId)⟩)) := by
  constructor
  · intro h
    have hv := validateSignup_ne_nil emailValid b h
    exact ⟨by simp [handleSignup, hv], mem_validateSignup emailValid b⟩
  · rintro nm em pw rfl hn he hp hfresh
    have hnv : ¬(validateSignup emailValid ⟨some nm, some em, some pw⟩ ≠ []) := by
      simp [validateSignup, hn, he, hp]
    have hany : (db.users.any (fun u => u.email == em)) = false := by
      rw [List.any_eq_false]
      intro u hu
      simp [hfresh u hu]
    simp [handleSignup, hnv, insertUser, hany]

/-- C5 counterexample: a request meeting all three field constraints whose
email duplicates a stored user creates no user and is answered 400, so the
claim's unqualified success clause fails. -/
theorem signup_contract_cex :
    optNotEmpty (some nameB) = true ∧ optIsEmail emailOk (some emailA) = true ∧
    optMinLen6 (some pwSecret2) = true ∧
    handleSignup emailOk hashModel mkTokenModel ⟨some nameB, some emailA, some pwSecret2⟩
        db0 dayStr =
      (db0, ⟨400, RespBody.errMsg msgEmailExists⟩) := by decide

/-- C5 witness: a fresh valid signup appends exactly one user row storing
the hashed password and returns id, name, email and token. -/
theorem signup_contract_witness :
    handleSignup emailOk hashModel mkTokenModel ⟨some nameB, some emailB, some pwSecret⟩
        db0 dayStr =
      ({ db0 with
          users := db0.users ++ [⟨db0.nextUserId, nameB, emailB, hashModel pwSecret, dayStr⟩],
          nextUserId := db0.nextUserId + 1 },
        ⟨201, RespBody.signupSuccess db0.nextUserId nameB emailB
          (mkTokenModel db0.nextUserId)⟩) :=
  (signup_contract emailOk hashModel mkTokenModel ⟨some nameB, some emailB, some pwSecret⟩
      db0 dayStr).2 nameB emailB pwSecret rfl (by decide) (by decide) (by decide)
    (by decide)

/-- C6 (duplicate email, amended): a signup request that passes the field
validators and whose email equals a stored user's email is answered 400
with the duplicate-email body and inserts no row, whatever the name and
password.  The claim's "regardless of name and password" is refuted by
`signup_duplicate_email_cex`: an invalid name preempts the duplicate
check. -/
theorem signup_duplicate_email (emailValid : String → Bool)
    (hash : String → String) (mkToken : Nat → String) (b : SignupBody)
    (db : DB) (now : String) (u : User)
    (hu : u ∈ db.users) (hemail : u.email = b.email.getD strEmpty)
    (hvalid : validateSignup emailValid b = []) :
    handleSignup emailValid hash mkToken b db now =
      (db, ⟨400, RespBody.errMsg msgEmailExists⟩) := by
  have hany : db.users.any (fun x => x.email == b.email.getD strEmpty) = true :=
    List.any_eq_true.mpr ⟨u, hu, by simp [hemail]⟩
  simp [handleSignup, hvalid, insertUser, hany]

/-- C6 counterexample: same duplicate email, but an empty name — the
response is the name-validation error, not the duplicate-email error. -/
theorem signup_duplicate_email_cex :
    user1 ∈ db0.users ∧ user1.email = emailA ∧
    handleSignup emailOk hashModel mkTokenModel ⟨some strEmpty, some emailA, some pwSecret⟩
        db0 dayStr =
      (db0, ⟨400, RespBody.errList [msgNameReq]⟩) ∧
    RespBody.errList [msgNameReq] ≠ RespBody.errMsg msgEmailExists := by decide

/-- C6 witness: a fully valid signup body with the stored user's email gets
the duplicate-email error and leaves the store unchanged. -/
theorem signup_duplicate_email_witness :
    handleSignup emailOk hashModel mkTokenModel ⟨some nameAlice, some emailA, some pwSecret2⟩
        db0 dayStr =
      (db0, ⟨400, RespBody.errMsg msgEmailExists⟩) :=
  signup_duplicate_email emailOk hashModel mkTokenModel
    ⟨some nameAlice, some emailA, some pwSecret2⟩ db0 dayStr user1
    (by decide) (by decide) (by decide)

/-- C7 (create validation): an authenticated create whose body leaves any
of the four required fields empty or absent is answered 400 with the
validator output — which names exactly the empty required fields — and no
recipe row is inserted. -/
theorem create_rejects_empty_fields (b : RecipeBody) (uid : Nat) (db : DB)
    (now : String)
    (h : optNotEmpty b.title = false ∨ optNotEmpty b.description = false ∨
      optNotEmpty b.ingredients = false ∨ optNotEmpty b.instructions = false) :
    handlePostRecipes b uid db now = (db, ⟨400, RespBody.errList (validateRecipe b)⟩) ∧
    (msgTitleReq ∈ validateRecipe b ↔ optNotEmpty b.title = false) ∧
    (msgDescReq ∈ validateRecipe b ↔ optNotEmpty b.description = false) ∧
    (msgIngrReq ∈ validateRecipe b ↔ optNotEmpty b.ingredients = false) ∧
    (msgInstrReq ∈ validateRecipe b ↔ optNotEmpty b.instructions = false) := by
  have hv := validateRecipe_ne_nil b h
  exact ⟨by simp [handlePostRecipes, hv], mem_validateRecipe b⟩

/-- C7 witness: a body with an empty title and the rest filled is rejected
with the validator output and the store untouched. -/
theorem create_rejects_empty_fields_witness :
    handlePostRecipes rbNoTitle 1 db1 dayStr =
      (db1, ⟨400, RespBody.errList (validateRecipe rbNoTitle)⟩) :=
  (create_rejects_empty_fields rbNoTitle 1 db1 dayStr (Or.inl (by decide))).1

/-- C8 (create success): an authenticated create with all four required
fields non-empty appends exactly one recipe row owned by the caller, with
the generated id, and answers 201 echoing the stored field values plus
that id. -/
theorem create_success_response (t d ing ins : String) (iu : Option String)
    (cid : Option Nat) (uid : Nat) (db : DB) (now : String)
    (ht : t ≠ strEmpty) (hd : d ≠ strEmpty) (hing : ing ≠ strEmpty)
    (hins : ins ≠ strEmpty) :
    handlePostRecipes ⟨some t, some d, some ing, some ins, iu, cid⟩ uid db now =
      ({ db with
          recipes := db.recipes ++
            [⟨db.nextRecipeId, t, d, ing, ins, iu, cid, uid, now⟩],
          nextRecipeId := db.nextRecipeId + 1 },
        ⟨201, RespBody.createdRecipe db.nextRecipeId t d ing ins iu cid⟩) :=
  handlePost_success t d ing ins iu cid uid db now ht hd hing hins

/-- C8 witness: creating the sample recipe appends the expected row to the
sample store and answers 201 with the generated id. -/
theorem create_success_response_witness :
    handlePostRecipes rbFull 1 db1 dayStr =
      ({ db1 with
          recipes := db1.recipes ++
            [⟨db1.nextRecipeId, tStew, dWarm, iMeat, insSimmer, none, none, 1, dayStr⟩],
          nextRecipeId := db1.nextRecipeId + 1 },
        ⟨201, RespBody.createdRecipe db1.nextRecipeId tStew dWarm iMeat insSimmer
          none none⟩) :=
  create_success_response tStew dWarm iMeat insSimmer none none 1 db1 dayStr
    (by decide) (by decide) (by decide) (by decide)

/-- C9 (round-trip): in a store whose recipe ids are all below the id
counter (the AUTOINCREMENT invariant), creating a recipe and then fetching
the generated id as the same user returns exactly the created field values
plus the generated id and the creation timestamp (the stored row, which
also carries the caller as owner). -/
theorem create_get_roundtrip (t d ing ins : String) (iu : Option String)
    (cid : Option Nat) (uid : Nat) (db : DB) (now : String)
    (hwf : ∀ s ∈ db.recipes, s.id < db.nextRecipeId)
    (ht : t ≠ strEmpty) (hd : d ≠ strEmpty) (hing : ing ≠ strEmpty)
    (hins : ins ≠ strEmpty) :
    (handlePostRecipes ⟨some t, some d, some ing, some ins, iu, cid⟩ uid db now).2 =
      ⟨201, RespBody.createdRecipe db.nextRecipeId t d ing ins iu cid⟩ ∧
    handleGetRecipeById db.nextRecipeId uid
        (handlePostRecipes ⟨some t, some d, some ing, some ins, iu, cid⟩ uid db now).1 =
      ⟨200, RespBody.recipeJson ⟨db.nextRecipeId, t, d, ing, ins, iu, cid, uid, now⟩⟩ := by
  have hpost := handlePost_success t d ing ins iu cid uid db now ht hd hing hins
  rw [hpost]
  refine ⟨rfl, ?_⟩
  have hnone : db.recipes.find? (rowMatch db.nextRecipeId uid) = none := by
    apply List.find?_eq_none.mpr
    intro s hs
    have hne : s.id ≠ db.nextRecipeId := Nat.ne_of_lt (hwf s hs)
    simp [rowMatch, hne]
  simp [handleGetRecipeById, List.find?_append, hnone, rowMatch]

/-- C9 witness: creating the sample recipe in the sample store and fetching
the generated id returns the stored row. -/
theorem create_get_roundtrip_witness :
    handleGetRecipeById db1.nextRecipeId 1 (handlePostRecipes rbFull 1 db1 dayStr).1 =
      ⟨200, RespBody.recipeJson
        ⟨db1.nextRecipeId, tStew, dWarm, iMeat, insSimmer, none, none, 1, dayStr⟩⟩ :=
  (create_get_roundtrip tStew dWarm iMeat insSimmer none none 1 db1 dayStr
    (by decide) (by decide) (by decide) (by decide) (by decide)).2

end RecipeApi
